import Mathlib

/-!
Shallow embedding of the CareConnector chat gateway
(`mcp-server/src/http.ts`, both variants of the file, and the
profile/instruction context module described by the design document),
together with theorems settling the behavioural claims about it.

Conventions of the embedding:
* JSON runtime values that the TypeScript code never validates are
  modelled by `JVal`; typed request fields are plain `String`/`Option`.
* Each Express handler becomes a pure function from the process-wide
  configuration, the external backend (passed as a function so that its
  behaviour can be quantified over), and the request body, to the pair
  of (list of outbound backend calls made, HTTP response).  The list of
  calls makes "zero calls to the backend" and "the request forwarded"
  directly statable.
* A `try`/`catch` around an `await` of a fallible backend is modelled by
  the backend returning `Except String α`; the `catch` branch is the
  `.error` case.  Totality of the handler functions is the embedding of
  "never an unhandled fault".
-/

namespace CareConnector

/-- A JSON-ish runtime value, for body fields the gateway forwards without
validating their type (history roles and contents). -/
inductive JVal where
  | jstr : String → JVal
  | jnum : Int → JVal
  | jbool : Bool → JVal
  | jnull : JVal
  deriving DecidableEq, Repr

/-- One caller-supplied history turn, as it arrives at runtime: the role is
an arbitrary string (the TS annotation `'user' | 'assistant'` is not
checked at runtime) and the content is an arbitrary JSON value. -/
structure Msg where
  role : String
  content : JVal
  deriving DecidableEq, Repr

/-- One entry of the `contents` array handed to the Gemini SDK:
`{ role, parts: [{ text }] }`.  The single `text` part is kept as the
bare value. -/
structure GContent where
  role : String
  parts : List JVal
  deriving DecidableEq, Repr

/-- `http.ts` lines 75-78: one history turn mapped to Gemini format,
`role: h.role === 'assistant' ? 'model' : 'user', parts: [{ text: h.content }]`. -/
def mapTurn (h : Msg) : GContent :=
  { role := if h.role = "assistant" then "model" else "user"
    parts := [h.content] }

/-- `http.ts` lines 74-80 (first variant): the full `contents` array, the
mapped history followed by the new user message. -/
def toContents (history : List Msg) (message : String) : List GContent :=
  history.map mapTurn ++ [{ role := "user", parts := [JVal.jstr message] }]

/-- `http.ts` lines 196-202 (second variant): `history.map(...)` followed by
`contents.push({ role: 'user', parts: [{ text: message }] })`. -/
def toContentsV2 (history : List Msg) (message : String) : List GContent :=
  (history.map mapTurn).concat { role := "user", parts := [JVal.jstr message] }

/-- Modelled from the spec: `UserProfile` (the `./context` module imported by
`http.ts` is not part of the sources; data model from spec section 3):
opaque id keys the store, optional display name and contact email, and a
list of medical-safety flags (allergies). -/
structure UserProfile where
  name : Option String := none
  email : Option String := none
  allergies : List String := []
  deriving DecidableEq, Repr

/-- A profile store: a keyed association of user ids to profiles
(`context/profile.json`). -/
def ProfileStore := List (String × UserProfile)

/-- Modelled from the spec: `loadUserProfile` of the missing `./context`
module (spec section 4.1): given a user id, return the stored profile, or a
well-defined empty profile when no record exists; never fails. -/
def loadUserProfile (store : ProfileStore) (userId : String) : UserProfile :=
  match List.lookup userId store with
  | some p => p
  | none => {}

/-- Modelled from the spec: the exclusion clause the Instruction Builder
appends for one safety flag (spec section 4.2): an explicit, unambiguous
clause naming the substance and instructing the model to omit or warn. -/
def exclusionClause (x : String) : String :=
  "\nEXCLUSION: the user is allergic to " ++ (x ++
    ". Never recommend any item containing it; if something conflicts, omit it and warn why.")

/-- Concatenation of a list of strings, in order. -/
def strConcat : List String → String
  | [] => ""
  | s :: rest => s ++ strConcat rest

/-- Modelled from the spec: `buildSystemInstruction` of the missing
`./context` module (spec section 4.2): start from the fixed safety-policy
template, resolve the profile, and append one exclusion clause per
medical-safety flag; with no flags the template is emitted unmodified.
Pure in the template, store and user id. -/
def buildSystemInstruction (template : String) (store : ProfileStore)
    (userId : String) : String :=
  template ++ strConcat ((loadUserProfile store userId).allergies.map exclusionClause)

/-- Process-wide configuration fixed at startup (`http.ts` lines 13-16 and
the environment consumed by `server.ts`).  `defaultUserId` models the
`DEFAULT_USER_ID` environment value, which only `server.ts` reads; the
HTTP handlers are shown not to consult it. -/
structure Config where
  backendBaseUrl : Option String := none
  agentmailAgent : String := "terriblemedicine23@agentmail.to"
  defaultUserId : String := "demo"
  template : String := ""
  store : ProfileStore := []

/-- Body of `POST /api/chat` (first variant), `http.ts` lines 49-59.
`message` is untyped until validated; `history`, `userId`, `modelName`
default to `[]`, `'demo'`, `'gemini-2.0-flash'` when absent. -/
structure ChatRequest where
  message : Option JVal := none
  history : List Msg := []
  userId : Option String := none
  modelName : Option String := none

/-- One invocation of the model backend: the model name, the system
instruction the model was created with, and the `contents` turn sequence
passed to `generateContent`. -/
structure ModelCall where
  modelName : String
  systemInstruction : String
  contents : List GContent
  deriving DecidableEq, Repr

/-- Response of `POST /api/chat`: 400 `{error}`, 200 `{text}`, or
500 `{error, details}` (`http.ts` lines 61-89). -/
inductive ChatResp where
  | badRequest (error : String)
  | ok (text : String)
  | failed (error : String) (details : String)
  deriving DecidableEq, Repr

/-- HTTP status of a chat response, from the `res.status(...)` calls. -/
def ChatResp.status : ChatResp → Nat
  | .badRequest _ => 400
  | .ok _ => 200
  | .failed _ _ => 500

/-- Whether a chat response is the 400 validation rejection. -/
def ChatResp.isBadRequest : ChatResp → Bool
  | .badRequest _ => true
  | _ => false

/-- The model call `POST /api/chat` constructs for a validated message `s`:
model name and instruction from `getGenerativeModel` (`http.ts` lines
66-71), contents from lines 74-80. -/
def chatCallOf (cfg : Config) (req : ChatRequest) (s : String) : ModelCall :=
  { modelName := req.modelName.getD "gemini-2.0-flash"
    systemInstruction := buildSystemInstruction cfg.template cfg.store (req.userId.getD "demo")
    contents := toContents req.history s }

/-- `POST /api/chat` (first variant), `http.ts` lines 47-90.  Returns the
list of model-backend calls made and the HTTP response.  The backend is a
function returning `Except`: `.error` is the thrown/caught failure path. -/
def chatHandler (cfg : Config) (backend : ModelCall → Except String String)
    (req : ChatRequest) : List ModelCall × ChatResp :=
  match req.message with
  | some (JVal.jstr s) =>
    if s = "" then ([], .badRequest "message is required (string)")
    else
      let call := chatCallOf cfg req s
      match backend call with
      | .ok text => ([call], .ok text)
      | .error e => ([call], .failed "chat_failed" e)
  | _ => ([], .badRequest "message is required (string)")

/-- Startup state of the second variant of `http.ts` (lines 162-174): the
system instruction is read once from `prompts/system.md` at process start
and the model is created once with it. -/
structure V2State where
  systemInstruction : String

/-- Body of `POST /api/chat` in the second variant (`http.ts` lines
186-189): no `userId` and no `modelName` field exists. -/
structure ChatRequestV2 where
  message : Option JVal := none
  history : List Msg := []

/-- `POST /api/chat` (second, startup-loaded variant), `http.ts` lines
184-211: every request is served with the one startup-loaded instruction
`st.systemInstruction`; the request carries no user id. -/
def chatHandlerV2 (st : V2State) (backend : ModelCall → Except String String)
    (req : ChatRequestV2) : List ModelCall × ChatResp :=
  match req.message with
  | some (JVal.jstr s) =>
    if s = "" then ([], .badRequest "message is required")
    else
      let call : ModelCall :=
        { modelName := "gemini-2.0-flash"
          systemInstruction := st.systemInstruction
          contents := toContentsV2 req.history s }
      match backend call with
      | .ok text => ([call], .ok text)
      | .error e => ([call], .failed "chat_failed" e)
  | _ => ([], .badRequest "message is required")

/-- Body of `POST /api/send-email`, `http.ts` lines 96-101.  `to`,
`subject`, `text` are modelled as optional strings: `none` is an absent
field, and JavaScript truthiness (`!to`) also rejects the empty string. -/
structure SendEmailRequest where
  «to» : Option String := none
  subject : Option String := none
  text : Option String := none
  userId : Option String := none

/-- JavaScript falsiness of an optional string field: absent or empty. -/
def falsy (o : Option String) : Bool :=
  o.getD "" = ""

/-- The JSON body `http.ts` lines 116-123 posts to
`${BACKEND_BASE_URL}/api/send-new-message`. -/
structure EmailOutbound where
  agent_email : String
  recipientEmail : String
  subject : String
  text : String
  metaUserId : String
  metaProfileEmail : Option String
  deriving DecidableEq, Repr

/-- The email backend's HTTP response as seen through `fetch`: a status
code, the `resp.text()` body, and the `resp.json()` payload on success
(kept opaque as a string). -/
structure UpstreamResp where
  status : Nat
  bodyText : String
  jsonData : String
  deriving DecidableEq, Repr

/-- `resp.ok` of the Fetch API: status in the range 200-299. -/
def UpstreamResp.ok (r : UpstreamResp) : Bool :=
  200 ≤ r.status ∧ r.status ≤ 299

/-- Response of `POST /api/send-email`: 400 `{error}`, 502
`{error, status, body}`, 500 `{error, details}`, or 200 `{ok:true,
forwarded}` (`http.ts` lines 103-137). -/
inductive SendEmailResp where
  | clientError (error : String)
  | badGateway (error : String) (status : Nat) (body : String)
  | serverError (error : String) (details : String)
  | success (forwarded : String)
  deriving DecidableEq, Repr

/-- HTTP status of a send-email response, from the `res.status(...)` calls. -/
def SendEmailResp.status : SendEmailResp → Nat
  | .clientError _ => 400
  | .badGateway _ _ _ => 502
  | .serverError _ _ => 500
  | .success _ => 200

/-- Whether a send-email response reports success (`{ok: true, ...}`). -/
def SendEmailResp.isSuccess : SendEmailResp → Bool
  | .success _ => true
  | _ => false

/-- The outbound body `POST /api/send-email` builds for a request
(`http.ts` lines 110-123): fixed `agent_email` from configuration,
`recipientEmail` from the caller's `to`, and logging metadata from the
profile lookup. -/
def outboundOf (cfg : Config) (req : SendEmailRequest) : EmailOutbound :=
  { agent_email := cfg.agentmailAgent
    recipientEmail := req.«to».getD ""
    subject := req.subject.getD ""
    text := req.text.getD ""
    metaUserId := req.userId.getD "demo"
    metaProfileEmail := (loadUserProfile cfg.store (req.userId.getD "demo")).email }

/-- `POST /api/send-email`, `http.ts` lines 94-138.  Checks, in source
order: relay URL configured (lines 103-105), then field presence (lines
106-108); then forwards `outboundOf` and translates the upstream result,
with the `catch` branch as the backend's `.error` case. -/
def sendEmailHandler (cfg : Config)
    (backend : EmailOutbound → Except String UpstreamResp)
    (req : SendEmailRequest) : List EmailOutbound × SendEmailResp :=
  match cfg.backendBaseUrl with
  | none => ([], .clientError "BACKEND_BASE_URL not configured in .env")
  | some _ =>
    if falsy req.«to» || falsy req.subject || falsy req.text then
      ([], .clientError "to, subject, and text are required")
    else
      let out := outboundOf cfg req
      match backend out with
      | .error e => ([out], .serverError "send_email_failed" e)
      | .ok resp =>
        if resp.ok then ([out], .success resp.jsonData)
        else ([out], .badGateway "sender_bad_gateway" resp.status resp.bodyText)

/-- Response of `GET /api/profile/:userId`: `{ userId, profile }` where
`userId` echoes the raw path parameter. -/
structure ProfileResp where
  userId : String
  profile : UserProfile
  deriving DecidableEq, Repr

/-- `GET /api/profile/:userId`, `http.ts` lines 40-44: looks up
`userId || 'demo'` (the JavaScript `||` falls back on the empty string)
and echoes the raw parameter alongside the profile. -/
def profileHandler (cfg : Config) (userId : String) : ProfileResp :=
  { userId := userId
    profile := loadUserProfile cfg.store (if userId = "" then "demo" else userId) }

/-! ### Shared helper lemmas -/

theorem strConcat_append (u v : List String) :
    strConcat (u ++ v) = strConcat u ++ strConcat v := by
  induction u with
  | nil => simp [strConcat]
  | cons s rest ih => simp [strConcat, ih, String.append_assoc]

theorem strConcat_mem_split (f : String → String) (x : String) (l : List String)
    (h : x ∈ l) : ∃ a b, strConcat (l.map f) = a ++ (f x ++ b) := by
  obtain ⟨u, v, huv⟩ := List.append_of_mem h
  refine ⟨strConcat (u.map f), strConcat (v.map f), ?_⟩
  subst huv
  simp [strConcat_append, strConcat]

theorem chatHandler_calls (cfg : Config) (backend : ModelCall → Except String String)
    (req : ChatRequest) (s : String)
    (hm : req.message = some (JVal.jstr s)) (hs : s ≠ "") :
    (chatHandler cfg backend req).1 = [chatCallOf cfg req s] := by
  simp only [chatHandler, hm]
  rw [if_neg hs]
  cases backend (chatCallOf cfg req s) <;> rfl

theorem sendEmailHandler_calls (cfg : Config)
    (backend : EmailOutbound → Except String UpstreamResp) (req : SendEmailRequest)
    (u : String) (hc : cfg.backendBaseUrl = some u)
    (hf : (falsy req.«to» || falsy req.subject || falsy req.text) = false) :
    (sendEmailHandler cfg backend req).1 = [outboundOf cfg req] := by
  simp only [sendEmailHandler, hc]
  rw [if_neg (by simp [hf])]
  cases hb : backend (outboundOf cfg req) with
  | error e => rfl
  | ok resp => by_cases hk : resp.ok <;> simp [hk]

theorem toContents_length (history : List Msg) (message : String) :
    (toContents history message).length = history.length + 1 := by
  simp [toContents]

theorem toContents_getElem_history (history : List Msg) (message : String)
    (i : Nat) (m : Msg) (h : history[i]? = some m) :
    (toContents history message)[i]? = some (mapTurn m) := by
  rcases List.getElem?_eq_some.mp h with ⟨hi, heq⟩
  simp [toContents, List.getElem?_append, hi, h, heq]

theorem toContents_getElem_last (history : List Msg) (message : String) :
    (toContents history message)[history.length]? =
      some { role := "user", parts := [JVal.jstr message] } := by
  simp [toContents, List.getElem?_append]

theorem toContentsV2_eq (history : List Msg) (message : String) :
    toContentsV2 history message = toContents history message := by
  simp [toContentsV2, toContents, List.concat_eq_append]

theorem chatHandler_not_badRequest (cfg : Config)
    (backend : ModelCall → Except String String) (req : ChatRequest) (s : String)
    (hm : req.message = some (JVal.jstr s)) (hs : s ≠ "") :
    ((chatHandler cfg backend req).2).isBadRequest = false := by
  simp only [chatHandler, hm]
  rw [if_neg hs]
  cases backend (chatCallOf cfg req s) <;> rfl

theorem chatHandler_isBadRequest (cfg : Config)
    (backend : ModelCall → Except String String) (req : ChatRequest) :
    ((chatHandler cfg backend req).2).isBadRequest = true ↔
      ∀ s, req.message = some (JVal.jstr s) → s = "" := by
  cases hmsg : req.message with
  | none => simp [chatHandler, hmsg, ChatResp.isBadRequest]
  | some v =>
    cases v with
    | jstr s =>
      by_cases hs : s = ""
      · subst hs
        simp [chatHandler, hmsg, ChatResp.isBadRequest]
      · rw [chatHandler_not_badRequest cfg backend req s hmsg hs]
        constructor
        · intro h
          exact absurd h (by simp)
        · intro hv
          exact absurd (hv s rfl) hs
    | jnum n => simp [chatHandler, hmsg, ChatResp.isBadRequest]
    | jbool b => simp [chatHandler, hmsg, ChatResp.isBadRequest]
    | jnull => simp [chatHandler, hmsg, ChatResp.isBadRequest]

theorem chatHandlerV2_calls (st : V2State) (backend : ModelCall → Except String String)
    (req : ChatRequestV2) (s : String)
    (hm : req.message = some (JVal.jstr s)) (hs : s ≠ "") :
    (chatHandlerV2 st backend req).1 =
      [⟨"gemini-2.0-flash", st.systemInstruction, toContentsV2 req.history s⟩] := by
  simp only [chatHandlerV2, hm]
  rw [if_neg hs]
  cases backend ⟨"gemini-2.0-flash", st.systemInstruction, toContentsV2 req.history s⟩ <;> rfl

theorem chatHandler_config_congr (c1 c2 : Config)
    (backend : ModelCall → Except String String) (req : ChatRequest)
    (ht : c1.template = c2.template) (hst : c1.store = c2.store) :
    chatHandler c1 backend req = chatHandler c2 backend req := by
  unfold chatHandler chatCallOf
  rw [ht, hst]

theorem sendEmailHandler_config_congr (c1 c2 : Config)
    (backend : EmailOutbound → Except String UpstreamResp) (req : SendEmailRequest)
    (hb : c1.backendBaseUrl = c2.backendBaseUrl)
    (ha : c1.agentmailAgent = c2.agentmailAgent) (hst : c1.store = c2.store) :
    sendEmailHandler c1 backend req = sendEmailHandler c2 backend req := by
  unfold sendEmailHandler outboundOf
  rw [hb, ha, hst]

theorem profileHandler_config_congr (c1 c2 : Config) (p : String)
    (hst : c1.store = c2.store) :
    profileHandler c1 p = profileHandler c2 p := by
  unfold profileHandler
  rw [hst]

/-! ### Concrete fixtures used by the witness theorems -/

def demoProfile : UserProfile :=
  { name := some "Demo User", email := some "demo@example.com", allergies := ["peanuts"] }

def demoStore : ProfileStore := [("demo", demoProfile)]

def cfg0 : Config :=
  { backendBaseUrl := some "http://127.0.0.1:5000", template := "POLICY", store := demoStore }

def bkOk : ModelCall → Except String String :=
  fun _ => Except.ok "Here is a safe suggestion."

def bkFail : ModelCall → Except String String :=
  fun _ => Except.error "quota exceeded"

def req0 : ChatRequest :=
  { message := some (JVal.jstr "Suggest an OTC option for a headache.")
    history := [⟨"user", JVal.jstr "hi"⟩, ⟨"assistant", JVal.jstr "hello"⟩] }

def cfgNoRelay : Config :=
  { backendBaseUrl := none, template := "POLICY", store := demoStore }

def emailReq0 : SendEmailRequest :=
  { «to» := some "x@example.com", subject := some "Refill reminder"
    text := some "Your refill is due.", userId := none }

def emailReqMissing : SendEmailRequest := { «to» := some "x@example.com" }

def upstream500 : UpstreamResp := { status := 500, bodyText := "boom", jsonData := "" }

def ebk500 : EmailOutbound → Except String UpstreamResp :=
  fun _ => Except.ok upstream500

def ebkOk : EmailOutbound → Except String UpstreamResp :=
  fun _ => Except.ok { status := 200, bodyText := "", jsonData := "sent" }

/-! ### Claim theorems -/

/-- Claim C2: for every valid chat request, the turn sequence sent to the
model backend is exactly the caller-supplied history in order (role
`assistant` mapped to `model`, anything else to `user`, content unchanged)
followed by the new message as the final element; the second variant of
the code builds the identical sequence. -/
theorem chat_contents_preserve_order (cfg : Config)
    (backend : ModelCall → Except String String) (req : ChatRequest) (s : String)
    (hm : req.message = some (JVal.jstr s)) (hs : s ≠ "") :
    ∀ call ∈ (chatHandler cfg backend req).1,
      call.contents.length = req.history.length + 1
      ∧ (∀ (i : Nat) (m : Msg), req.history[i]? = some m →
          call.contents[i]? =
            some ({ role := if m.role = "assistant" then "model" else "user"
                    parts := [m.content] } : GContent))
      ∧ call.contents[req.history.length]? =
          some { role := "user", parts := [JVal.jstr s] }
      ∧ call.contents = toContentsV2 req.history s := by
  intro call hcall
  rw [chatHandler_calls cfg backend req s hm hs] at hcall
  have hc : call = chatCallOf cfg req s := List.mem_singleton.mp hcall
  subst hc
  refine ⟨toContents_length req.history s, ?_, toContents_getElem_last req.history s,
    (toContentsV2_eq req.history s).symm⟩
  intro i m hi
  exact toContents_getElem_history req.history s i m hi

/-- Claim C2 witness: the theorem applied to a concrete request with a
two-turn history. -/
theorem chat_contents_preserve_order_witness :
    (chatCallOf cfg0 req0 "Suggest an OTC option for a headache.").contents.length =
      req0.history.length + 1
    ∧ (chatCallOf cfg0 req0 "Suggest an OTC option for a headache.").contents[1]? =
        some { role := "model", parts := [JVal.jstr "hello"] }
    ∧ (chatCallOf cfg0 req0 "Suggest an OTC option for a headache.").contents[req0.history.length]? =
        some { role := "user", parts := [JVal.jstr "Suggest an OTC option for a headache."] } := by
  have h := chat_contents_preserve_order cfg0 bkOk req0
    "Suggest an OTC option for a headache." rfl (by decide)
    (chatCallOf cfg0 req0 "Suggest an OTC option for a headache.")
    (by
      rw [chatHandler_calls cfg0 bkOk req0 "Suggest an OTC option for a headache." rfl
        (by decide)]
      exact List.mem_singleton_self _)
  refine ⟨h.1, ?_, h.2.2.1⟩
  simpa using h.2.1 1 ⟨"assistant", JVal.jstr "hello"⟩ rfl

/-- Claim C9: history entries are never validated: a turn whose role is
anything other than `assistant` is forwarded with role `user` and its
content (any JSON value, including the empty string) unchanged; whether a
chat request is rejected with 400 depends only on the `message` field,
never on the history. -/
theorem chat_history_never_validated (cfg : Config)
    (backend : ModelCall → Except String String) (req : ChatRequest) :
    (∀ m ∈ req.history, m.role ≠ "assistant" →
      mapTurn m = { role := "user", parts := [m.content] })
    ∧ (∀ hist2 : List Msg,
        ((chatHandler cfg backend { req with history := hist2 }).2).isBadRequest =
          ((chatHandler cfg backend req).2).isBadRequest)
    ∧ (((chatHandler cfg backend req).2).isBadRequest = true ↔
        ∀ s, req.message = some (JVal.jstr s) → s = "") := by
  refine ⟨?_, ?_, chatHandler_isBadRequest cfg backend req⟩
  · intro m _ hm
    simp [mapTurn, hm]
  · intro hist2
    exact Bool.eq_iff_iff.mpr
      ((chatHandler_isBadRequest cfg backend { req with history := hist2 }).trans
        (chatHandler_isBadRequest cfg backend req).symm)

/-- Claim C5: a send-email request with any of recipient, subject or body
absent or empty is answered with a 400 client error and the email backend
receives zero calls. -/
theorem sendEmail_missing_fields (cfg : Config)
    (backend : EmailOutbound → Except String UpstreamResp) (req : SendEmailRequest)
    (h : (falsy req.«to» || falsy req.subject || falsy req.text) = true) :
    (sendEmailHandler cfg backend req).1 = []
    ∧ ((sendEmailHandler cfg backend req).2).status = 400 := by
  cases hc : cfg.backendBaseUrl with
  | none => simp [sendEmailHandler, hc, SendEmailResp.status]
  | some u =>
    have he : sendEmailHandler cfg backend req =
        ([], .clientError "to, subject, and text are required") := by
      simp only [sendEmailHandler, hc]
      rw [if_pos h]
    rw [he]
    exact ⟨rfl, rfl⟩

/-- Claim C6: with the relay target unconfigured, every send-email request
is refused with the 400 "not configured" error, the email backend receives
zero calls, and the operation never reports success. -/
theorem sendEmail_not_configured (cfg : Config)
    (backend : EmailOutbound → Except String UpstreamResp) (req : SendEmailRequest)
    (h : cfg.backendBaseUrl = none) :
    sendEmailHandler cfg backend req =
      ([], .clientError "BACKEND_BASE_URL not configured in .env")
    ∧ ((sendEmailHandler cfg backend req).2).status = 400
    ∧ ((sendEmailHandler cfg backend req).2).isSuccess = false := by
  have he : sendEmailHandler cfg backend req =
      ([], .clientError "BACKEND_BASE_URL not configured in .env") := by
    simp only [sendEmailHandler, h]
  rw [he]
  exact ⟨rfl, rfl, rfl⟩

/-- Claim C7: when the email backend answers with a non-success HTTP
status, the gateway responds 502 with a payload carrying the upstream
status code and the upstream response body text. -/
theorem sendEmail_upstream_failure (cfg : Config)
    (backend : EmailOutbound → Except String UpstreamResp) (req : SendEmailRequest)
    (u : String) (resp : UpstreamResp)
    (hc : cfg.backendBaseUrl = some u)
    (hf : (falsy req.«to» || falsy req.subject || falsy req.text) = false)
    (hb : backend (outboundOf cfg req) = Except.ok resp)
    (hok : resp.ok = false) :
    sendEmailHandler cfg backend req =
      ([outboundOf cfg req], .badGateway "sender_bad_gateway" resp.status resp.bodyText)
    ∧ ((sendEmailHandler cfg backend req).2).status = 502 := by
  have he : sendEmailHandler cfg backend req =
      ([outboundOf cfg req], .badGateway "sender_bad_gateway" resp.status resp.bodyText) := by
    simp only [sendEmailHandler, hc]
    rw [if_neg (by simp [hf])]
    simp [hb, hok]
  rw [he]
  exact ⟨rfl, rfl⟩

/-- Claim C4: every outbound body the relay actually forwards carries
exactly the caller-supplied `to` value as `recipientEmail` and the fixed
configured operator identity as `agent_email`. -/
theorem sendEmail_recipient_faithful (cfg : Config)
    (backend : EmailOutbound → Except String UpstreamResp) (req : SendEmailRequest) :
    ∀ out ∈ (sendEmailHandler cfg backend req).1,
      some out.recipientEmail = req.«to» ∧ out.agent_email = cfg.agentmailAgent := by
  intro out hout
  cases hc : cfg.backendBaseUrl with
  | none => simp [sendEmailHandler, hc] at hout
  | some u =>
    by_cases hf : (falsy req.«to» || falsy req.subject || falsy req.text) = true
    · have he : (sendEmailHandler cfg backend req).1 = [] := by
        simp only [sendEmailHandler, hc]
        rw [if_pos hf]
      rw [he] at hout
      simp at hout
    · have hf' : (falsy req.«to» || falsy req.subject || falsy req.text) = false := by
        simpa using hf
      rw [sendEmailHandler_calls cfg backend req u hc hf'] at hout
      have ho : out = outboundOf cfg req := List.mem_singleton.mp hout
      subst ho
      have hto : falsy req.«to» = false := by
        rcases Bool.or_eq_false_iff.mp hf' with ⟨h12, _⟩
        rcases Bool.or_eq_false_iff.mp h12 with ⟨h1, _⟩
        exact h1
      refine ⟨?_, rfl⟩
      cases hv : req.«to» with
      | none => rw [hv] at hto; simp [falsy] at hto
      | some t => simp [outboundOf, hv]

/-- Claim C8: when the model-backend invocation fails, the failure is
caught and answered as a 500 response with error code `chat_failed` and
the failure detail string; the handler is a total function, so no request
is left unanswered. -/
theorem chat_failure_surfaced (cfg : Config)
    (backend : ModelCall → Except String String) (req : ChatRequest)
    (s e : String)
    (hm : req.message = some (JVal.jstr s)) (hs : s ≠ "")
    (hb : backend (chatCallOf cfg req s) = Except.error e) :
    (chatHandler cfg backend req).2 = ChatResp.failed "chat_failed" e
    ∧ ((chatHandler cfg backend req).2).status = 500 := by
  have he : (chatHandler cfg backend req).2 = ChatResp.failed "chat_failed" e := by
    simp only [chatHandler, hm]
    rw [if_neg hs]
    simp [hb]
  rw [he]
  exact ⟨rfl, rfl⟩

/-- Claim C5 witness: the theorem applied to the spec's missing-field
scenario, `{to:"x@example.com"}` with no subject or text. -/
theorem sendEmail_missing_fields_witness :
    (sendEmailHandler cfg0 ebkOk emailReqMissing).1 = []
    ∧ ((sendEmailHandler cfg0 ebkOk emailReqMissing).2).status = 400 :=
  sendEmail_missing_fields cfg0 ebkOk emailReqMissing (by decide)

/-- Claim C6 witness: the theorem applied to a configuration with no relay
URL and a fully valid request. -/
theorem sendEmail_not_configured_witness :
    sendEmailHandler cfgNoRelay ebkOk emailReq0 =
      ([], .clientError "BACKEND_BASE_URL not configured in .env")
    ∧ ((sendEmailHandler cfgNoRelay ebkOk emailReq0).2).status = 400
    ∧ ((sendEmailHandler cfgNoRelay ebkOk emailReq0).2).isSuccess = false :=
  sendEmail_not_configured cfgNoRelay ebkOk emailReq0 rfl

/-- Claim C7 witness: the theorem applied to a backend stub answering
HTTP 500 with body `boom`. -/
theorem sendEmail_upstream_failure_witness :
    sendEmailHandler cfg0 ebk500 emailReq0 =
      ([outboundOf cfg0 emailReq0], .badGateway "sender_bad_gateway" 500 "boom")
    ∧ ((sendEmailHandler cfg0 ebk500 emailReq0).2).status = 502 :=
  sendEmail_upstream_failure cfg0 ebk500 emailReq0 "http://127.0.0.1:5000" upstream500
    rfl (by decide) rfl (by decide)

/-- Claim C4 witness: the theorem applied to the concrete forwarded
request. -/
theorem sendEmail_recipient_faithful_witness :
    some (outboundOf cfg0 emailReq0).recipientEmail = emailReq0.«to»
    ∧ (outboundOf cfg0 emailReq0).agent_email = cfg0.agentmailAgent :=
  sendEmail_recipient_faithful cfg0 ebkOk emailReq0 (outboundOf cfg0 emailReq0)
    (by
      rw [sendEmailHandler_calls cfg0 ebkOk emailReq0 "http://127.0.0.1:5000" rfl
        (by decide)]
      exact List.mem_singleton_self _)

/-- Claim C8 witness: the theorem applied to a backend stub that throws. -/
theorem chat_failure_surfaced_witness :
    (chatHandler cfg0 bkFail req0).2 = ChatResp.failed "chat_failed" "quota exceeded"
    ∧ ((chatHandler cfg0 bkFail req0).2).status = 500 :=
  chat_failure_surfaced cfg0 bkFail req0 "Suggest an OTC option for a headache."
    "quota exceeded" rfl (by decide) rfl

/-- Claim C9 witness: a history entry with the invalid role `system` is
mapped to role `user` with its content intact, and a request with no
message is rejected regardless of such history. -/
theorem chat_history_never_validated_witness :
    mapTurn ⟨"system", JVal.jstr "x"⟩ = { role := "user", parts := [JVal.jstr "x"] }
    ∧ ((chatHandler cfg0 bkOk
          { message := none, history := [⟨"system", JVal.jstr "x"⟩] }).2).isBadRequest = true := by
  constructor
  · exact (chat_history_never_validated cfg0 bkOk
      { message := none, history := [⟨"system", JVal.jstr "x"⟩] }).1
      ⟨"system", JVal.jstr "x"⟩ (List.mem_singleton_self _) (by decide)
  · exact (chat_history_never_validated cfg0 bkOk
      { message := none, history := [⟨"system", JVal.jstr "x"⟩] }).2.2.mpr
      (fun s h => by simp at h)

/-- Claim C3: for every user whose stored profile carries an allergy flag
`x`, the built instruction contains an explicit exclusion clause naming
`x`; with no flags the static policy template is emitted unmodified.  The
Instruction Builder is modelled from the spec (its module is not among the
sources). -/
theorem instruction_contains_exclusions (template : String) (store : ProfileStore)
    (u : String) :
    (∀ x ∈ (loadUserProfile store u).allergies,
      ∃ a b, buildSystemInstruction template store u = a ++ (exclusionClause x ++ b)
        ∧ ∃ p q, exclusionClause x = p ++ (x ++ q))
    ∧ ((loadUserProfile store u).allergies = [] →
      buildSystemInstruction template store u = template) := by
  constructor
  · intro x hx
    obtain ⟨a, b, hab⟩ := strConcat_mem_split exclusionClause x _ hx
    refine ⟨template ++ a, b, ?_, "\nEXCLUSION: the user is allergic to ",
      ". Never recommend any item containing it; if something conflicts, omit it and warn why.",
      rfl⟩
    rw [buildSystemInstruction, hab, ← String.append_assoc]
  · intro h
    simp [buildSystemInstruction, h, strConcat, String.append_empty]

/-- Claim C3 witness: the theorem applied to the demo profile, whose single
flag is a peanut allergy, and to an empty store. -/
theorem instruction_contains_exclusions_witness :
    (∃ a b, buildSystemInstruction "POLICY" demoStore "demo" =
      a ++ (exclusionClause "peanuts" ++ b))
    ∧ buildSystemInstruction "POLICY" [] "demo" = "POLICY" := by
  constructor
  · obtain ⟨a, b, hab, _⟩ :=
      (instruction_contains_exclusions "POLICY" demoStore "demo").1 "peanuts" (by decide)
    exact ⟨a, b, hab⟩
  · exact (instruction_contains_exclusions "POLICY" [] "demo").2 rfl

/-- Claim C1 (amended): in the per-user gateway handler the instruction
passed to the model backend is recomputed on every request as a function of
that request's user id (and the read-only profile store), so an
instruction built for user A's request is never reused for user B's;
the startup-loaded variant, however, passes its single static instruction,
fixed at startup and independent of the request, to every chat request. -/
theorem instruction_recomputed_per_request (cfg : Config)
    (backend : ModelCall → Except String String) (req : ChatRequest) (s : String)
    (hm : req.message = some (JVal.jstr s)) (hs : s ≠ "") :
    ((chatHandler cfg backend req).1.map ModelCall.systemInstruction =
      [buildSystemInstruction cfg.template cfg.store (req.userId.getD "demo")])
    ∧ (∀ (st : V2State) (bk2 : ModelCall → Except String String) (r2 : ChatRequestV2),
        ∀ call ∈ (chatHandlerV2 st bk2 r2).1,
          call.systemInstruction = st.systemInstruction) := by
  constructor
  · rw [chatHandler_calls cfg backend req s hm hs]
    rfl
  · intro st bk2 r2 call hcall
    cases hm2 : r2.message with
    | none => simp [chatHandlerV2, hm2] at hcall
    | some v =>
      cases v with
      | jstr s2 =>
        by_cases hs2 : s2 = ""
        · simp [chatHandlerV2, hm2, hs2] at hcall
        · rw [chatHandlerV2_calls st bk2 r2 s2 hm2 hs2] at hcall
          have hcl := List.mem_singleton.mp hcall
          subst hcl
          rfl
      | jnum n => simp [chatHandlerV2, hm2] at hcall
      | jbool b => simp [chatHandlerV2, hm2] at hcall
      | jnull => simp [chatHandlerV2, hm2] at hcall

/-- Claim C1 witness: the amended theorem applied to a concrete request
with no explicit user id. -/
theorem instruction_recomputed_per_request_witness :
    (chatHandler cfg0 bkOk req0).1.map ModelCall.systemInstruction =
      [buildSystemInstruction cfg0.template cfg0.store "demo"] :=
  (instruction_recomputed_per_request cfg0 bkOk req0
    "Suggest an OTC option for a headache." rfl (by decide)).1

/-- Claim C1 counterexample: in the startup-loaded variant of the gateway
the instruction value is read once at startup and the very same value is
passed to the model for every chat request — here two different requests
(conceptually from two different users; the variant's request body has no
user id field at all) both receive the startup value, so the instruction
is cached across users within the process rather than recomputed from a
per-request user id. -/
theorem startup_instruction_cached_counterexample :
    ((chatHandlerV2 ⟨"STATIC TEMPLATE"⟩ bkOk
        { message := some (JVal.jstr "request of user A") }).1.map
      ModelCall.systemInstruction = ["STATIC TEMPLATE"])
    ∧ ((chatHandlerV2 ⟨"STATIC TEMPLATE"⟩ bkOk
        { message := some (JVal.jstr "request of user B") }).1.map
      ModelCall.systemInstruction = ["STATIC TEMPLATE"]) :=
  ⟨rfl, rfl⟩

/-- Claim C10: when `userId` is omitted the chat and send-email handlers
use the literal `demo` (the handlers' results are unchanged under any
value of the process-wide configured default user id, which only the CLI
entry point reads), and the profile endpoint falls back to `demo` for an
empty path parameter. -/
theorem omitted_userId_defaults_to_literal_demo (cfg : Config)
    (backend : ModelCall → Except String String)
    (ebk : EmailOutbound → Except String UpstreamResp)
    (req : ChatRequest) (reqE : SendEmailRequest) (d p : String)
    (h1 : req.userId = none) (h2 : reqE.userId = none) :
    chatHandler { cfg with defaultUserId := d } backend req = chatHandler cfg backend req
    ∧ sendEmailHandler { cfg with defaultUserId := d } ebk reqE =
        sendEmailHandler cfg ebk reqE
    ∧ profileHandler { cfg with defaultUserId := d } p = profileHandler cfg p
    ∧ (∀ call ∈ (chatHandler cfg backend req).1,
        call.systemInstruction = buildSystemInstruction cfg.template cfg.store "demo")
    ∧ (∀ out ∈ (sendEmailHandler cfg ebk reqE).1, out.metaUserId = "demo")
    ∧ (profileHandler cfg "").profile = loadUserProfile cfg.store "demo" := by
  refine ⟨chatHandler_config_congr _ _ backend req rfl rfl,
    sendEmailHandler_config_congr _ _ ebk reqE rfl rfl rfl,
    profileHandler_config_congr _ _ p rfl, ?_, ?_, by simp [profileHandler]⟩
  · intro call hcall
    cases hm : req.message with
    | none => simp [chatHandler, hm] at hcall
    | some v =>
      cases v with
      | jstr s =>
        by_cases hs : s = ""
        · simp [chatHandler, hm, hs] at hcall
        · rw [chatHandler_calls cfg backend req s hm hs] at hcall
          have hcl := List.mem_singleton.mp hcall
          subst hcl
          simp [chatCallOf, h1]
      | jnum n => simp [chatHandler, hm] at hcall
      | jbool b => simp [chatHandler, hm] at hcall
      | jnull => simp [chatHandler, hm] at hcall
  · intro out hout
    cases hc : cfg.backendBaseUrl with
    | none => simp [sendEmailHandler, hc] at hout
    | some u =>
      by_cases hf : (falsy reqE.«to» || falsy reqE.subject || falsy reqE.text) = true
      · have he : (sendEmailHandler cfg ebk reqE).1 = [] := by
          simp only [sendEmailHandler, hc]
          rw [if_pos hf]
        rw [he] at hout
        simp at hout
      · have hf' : (falsy reqE.«to» || falsy reqE.subject || falsy reqE.text) = false := by
          simpa using hf
        rw [sendEmailHandler_calls cfg ebk reqE u hc hf'] at hout
        have ho := List.mem_singleton.mp hout
        subst ho
        simp [outboundOf, h2]

/-- Claim C10 witness: the theorem applied at a concrete configuration
whose configured default user id is `other`, with requests omitting
`userId`. -/
theorem omitted_userId_defaults_witness :
    chatHandler { cfg0 with defaultUserId := "other" } bkOk req0 = chatHandler cfg0 bkOk req0
    ∧ (outboundOf cfg0 emailReq0).metaUserId = "demo"
    ∧ (profileHandler cfg0 "").profile = loadUserProfile cfg0.store "demo" := by
  have h := omitted_userId_defaults_to_literal_demo cfg0 bkOk ebkOk req0 emailReq0
    "other" "alice" rfl rfl
  refine ⟨h.1, ?_, h.2.2.2.2.2⟩
  exact h.2.2.2.2.1 (outboundOf cfg0 emailReq0)
    (by
      rw [sendEmailHandler_calls cfg0 ebkOk emailReq0 "http://127.0.0.1:5000" rfl
        (by decide)]
      exact List.mem_singleton_self _)

end CareConnector
